import Mathlib

/-!
Verification development for viewidget.py (abetterautomation/viewidget).

The module implements three Tkinter-canvas widgets: Dial (a needle gauge),
LED (an indicator light with blink/fade animation) and Digit (a
seven-segment display), plus a helper function mean.  Below we give a
shallow embedding of the state and the state-updating operations of these
widgets.  Numeric values are modelled by the rationals ℚ (Python floats are
idealised as exact arithmetic); canvas colors are modelled by the strings
the code hands to the canvas; the Tk timer queue (after / after_cancel) is
modelled by an explicit list of pending callbacks with fresh positive
identifiers.  Line numbers in the doc comments refer to src/viewidget.py.
-/

namespace Viewidget

/-- Python round-half-to-even of a rational, the semantics of the builtin
round(x) (and of int(round(x, 0))) used at viewidget.py:397-399, 579, 591
and in the color computations. -/
def roundHalfEven (q : ℚ) : ℤ :=
  let f := ⌊q⌋
  let r := q - f
  if r < 1/2 then f
  else if 1/2 < r then f + 1
  else if f % 2 = 0 then f else f + 1

/-- Python modulo on reals: a % b = a - b * floor(a / b) (sign follows the
divisor), used by `majorscale % semimajorscale` at viewidget.py:233. -/
def pyMod (a b : ℚ) : ℚ := a - b * ⌊a / b⌋

/-- Embedding of viewidget.py:64-66.  math.fsum performs exact summation,
so over ℚ it is List.sum; len of the (materialised) iterable is the list
length.  mean(iterable) = fsum(iterable) / max(len(iterable), 1). -/
def mean (iterable : List ℚ) : ℚ := iterable.sum / ((max iterable.length 1 : ℕ) : ℚ)

/-- Python values that can be handed to Digit.set_value: ints, floats and
strings.  A float is recorded by an exact numerator/denominator pair (the
denominator positive), since every Python float is a rational number.
Python compares ints and floats by numeric value, and a string is never
equal to a number; pyEq below captures that equality, which is the one
dict key lookup (`value in self.Masks`) uses. -/
inductive PyVal where
  | int : ℤ → PyVal
  | flt : ℤ → ℕ → PyVal
  | str : String → PyVal
deriving DecidableEq

/-- Numeric view of a PyVal as a numerator/denominator pair (ints and
floats compare by numeric value in Python). -/
def PyVal.numPair : PyVal → Option (ℤ × ℤ)
  | .int n => some (n, 1)
  | .flt a b => some (a, (b : ℤ))
  | .str _ => none

/-- Python equality (==) restricted to the values above: strings compare
as strings, numbers compare as rationals (by cross multiplication), and a
string never equals a number. -/
def pyEq (a b : PyVal) : Bool :=
  match a, b with
  | .str x, .str y => x = y
  | .str _, _ => false
  | _, .str _ => false
  | x, y =>
    match x.numPair, y.numPair with
    | some (n₁, d₁), some (n₂, d₂) => n₁ * d₂ = n₂ * d₁
    | _, _ => false

namespace Digit

/-- Embedding of the class attribute Digit.Masks, viewidget.py:753-770,
as an association list (Python dict keys, in source order) mapping each
key to its seven-bit segment mask. -/
def Masks : List (PyVal × ℕ) := [
  (.int 0, 0b0111111), (.str "0", 0b0111111),
  (.int 1, 0b0101000), (.str "1", 0b0101000),
  (.int 2, 0b1011011), (.str "2", 0b1011011),
  (.int 3, 0b1101011), (.str "3", 0b1101011),
  (.int 4, 0b1101100), (.str "4", 0b1101100),
  (.int 5, 0b1100111), (.str "5", 0b1100111),
  (.int 6, 0b1110111), (.str "6", 0b1110111),
  (.int 7, 0b0101001), (.str "7", 0b0101001),
  (.int 8, 0b1111111), (.str "8", 0b1111111),
  (.int 9, 0b1101111), (.str "9", 0b1101111),
  (.int 0xa, 0b1111101), (.str "a", 0b1111101), (.str "A", 0b1111101),
  (.int 0xb, 0b1110110), (.str "b", 0b1110110), (.str "B", 0b1110110),
  (.int 0xc, 0b0010111), (.str "c", 0b0010111), (.str "C", 0b0010111),
  (.int 0xd, 0b1111010), (.str "d", 0b1111010), (.str "D", 0b1111010),
  (.int 0xe, 0b1010111), (.str "e", 0b1010111), (.str "E", 0b1010111),
  (.int 0xf, 0b1010101), (.str "f", 0b1010101), (.str "F", 0b1010101)
]

/-- Dict lookup self.Masks[value] (and the membership test
`value in self.Masks`, which succeeds iff the lookup does): first entry
whose key is Python-equal to the value. -/
def lookupMask (v : PyVal) : Option ℕ :=
  (Masks.find? (fun kv => pyEq kv.1 v)).map (fun kv => kv.2)

/-- State of a Digit widget: the stored self.value (viewidget.py:791,
none models Python None) and, for each of the seven canvas segment
polygons (viewidget.py:820-872, indexed 0..6 in creation order), whether
its canvas state is NORMAL (true) or HIDDEN (false). -/
structure State where
  value : Option PyVal
  segOn : Fin 7 → Bool
deriving DecidableEq

/-- Embedding of Digit.set_mask, viewidget.py:887-894: segment i is shown
iff bit i (tested as 2 ** i & mask) of the mask is nonzero. -/
def set_mask (mask : ℕ) : Fin 7 → Bool :=
  fun i => decide (2 ^ i.val &&& mask ≠ 0)

/-- Embedding of Digit.set_value, viewidget.py:878-885.  A key of Masks
sets the corresponding mask and stores the value; Python None blanks the
display and stores None; anything else falls through both branches and
leaves the state untouched. -/
def set_value (s : State) (v : Option PyVal) : State :=
  match v with
  | some pv =>
    match lookupMask pv with
    | some m => { value := some pv, segOn := set_mask m }
    | none => s
  | none => { value := none, segOn := set_mask 0 }

/-- Table pairing each hexadecimal digit 0..15 with its lowercase and
uppercase character forms, used to state the claim about Digit.Masks. -/
def hexForms : List (ℤ × String × String) := [
  (0, "0", "0"), (1, "1", "1"), (2, "2", "2"), (3, "3", "3"),
  (4, "4", "4"), (5, "5", "5"), (6, "6", "6"), (7, "7", "7"),
  (8, "8", "8"), (9, "9", "9"),
  (10, "a", "A"), (11, "b", "B"), (12, "c", "C"), (13, "d", "D"),
  (14, "e", "E"), (15, "f", "F")
]

/-- Mask assigned to hexadecimal digit k by the table (via its int key). -/
def maskOfIdx (k : Fin 16) : ℕ :=
  (lookupMask (.int k.val)).getD 0

end Digit

namespace Dial

/-- State of a Dial widget (viewidget.py:84-405): the stored self.value
(none models the pre-construction Python None), the configuration fields
set by __init__ (min, max, start, end = start + extent, bound, the scale
steps, size and case width), and the attributes recomputed by set_value
(needle angle in degrees, out-of-bounds flag, readout display text and
alert color flag).  The needle polygon coordinates are the fixed base
coordinates rotated by needleAngle about the center (viewidget.py:385-391),
so the angle is the faithful abstraction of the rotation pushed to the
canvas; display=true models a truthy self.display canvas id, displayAlert
models which entry of self.displaycolor = [normal, alert] is used. -/
structure State where
  value : Option ℚ
  min : ℚ
  max : ℚ
  start : ℚ
  end_ : ℚ
  bound : Bool
  outofbounds : Bool
  needleAngle : ℚ
  display : Bool
  displayroundto : ℤ
  displayText : Option ℚ
  displayAlert : Bool
  size : ℚ
  casewidth : ℚ
  majorscale : ℚ
  semimajorscale : ℚ
  minorscale : ℚ

/-- Needle angle and out-of-bounds flag computed by Dial.set_value,
viewidget.py:360-379: linear interpolation, then (only when bound) the
hard stop at start/end when the value lies outside [min, max] for an
increasing scale, or outside [max, min] for a decreasing one. -/
def angleOob (s : State) (v : ℚ) : ℚ × Bool :=
  let angle := (v - s.min) * (s.end_ - s.start) / (s.max - s.min) + s.start
  if s.bound then
    if s.min < s.max then
      if v < s.min then (s.start, true)
      else if v > s.max then (s.end_, true)
      else (angle, false)
    else
      if v > s.min then (s.start, true)
      else if v < s.max then (s.end_, true)
      else (angle, false)
  else (angle, false)

/-- Readout value computed at viewidget.py:396-399: round(value, n) for a
positive self.displayroundto n, otherwise int(round(value)); Python
rounding is round-half-to-even. -/
def displayValue (s : State) (v : ℚ) : ℚ :=
  if s.displayroundto > 0 then
    (roundHalfEven (v * 10 ^ s.displayroundto.toNat) : ℚ) / (10 : ℚ) ^ s.displayroundto.toNat
  else (roundHalfEven v : ℚ)

/-- Embedding of Dial.set_value, viewidget.py:351-403.  None is replaced
by self.min; nothing happens unless the (replaced) value differs from the
stored one; otherwise the value is stored, the needle angle and
out-of-bounds flag are recomputed, and (when the readout display is
enabled) the display text and color are updated. -/
def set_value (s : State) (v? : Option ℚ) : State :=
  let v := v?.getD s.min
  if s.value = some v then s
  else
    let ao := angleOob s v
    let s1 : State :=
      { s with value := some v, needleAngle := ao.1, outofbounds := ao.2 }
    if s1.display then
      { s1 with displayText := some (displayValue s1 v), displayAlert := ao.2 }
    else s1

/-- Constructor keyword arguments of Dial.__init__ (viewidget.py:109-212).
A field is none when the keyword was not passed; unknown=true models the
presence of an unrecognized keyword.  The unit keyword never raises and
plays no further role, so it is omitted. -/
structure Opts where
  size : Option ℚ := none
  casewidth : Option ℚ := none
  start : Option ℚ := none
  extent : Option ℚ := none
  min : Option ℚ := none
  max : Option ℚ := none
  majorscale : Option ℚ := none
  semimajorscale : Option ℚ := none
  minorscale : Option ℚ := none
  value : Option ℚ := none
  bound : Option Bool := none
  withdisplay : Option Bool := none
  unknown : Bool := false

/-- Effective option values: the passed value or the default from
viewidget.py:142-154. -/
def Opts.effSize (o : Opts) : ℚ := o.size.getD 300

/-- Effective casewidth (default 15). -/
def Opts.effCasewidth (o : Opts) : ℚ := o.casewidth.getD 15

/-- Effective start angle (default 225). -/
def Opts.effStart (o : Opts) : ℚ := o.start.getD 225

/-- Effective extent angle (default -270). -/
def Opts.effExtent (o : Opts) : ℚ := o.extent.getD (-270)

/-- Effective minimum (default 60). -/
def Opts.effMin (o : Opts) : ℚ := o.min.getD 60

/-- Effective maximum (default 220). -/
def Opts.effMax (o : Opts) : ℚ := o.max.getD 220

/-- Effective majorscale (default 20). -/
def Opts.effMajorscale (o : Opts) : ℚ := o.majorscale.getD 20

/-- Effective semimajorscale (default 10). -/
def Opts.effSemimajorscale (o : Opts) : ℚ := o.semimajorscale.getD 10

/-- Effective minorscale (default 2). -/
def Opts.effMinorscale (o : Opts) : ℚ := o.minorscale.getD 2

/-- Warning of viewidget.py:223-224 (min greater than max; non-fatal). -/
def warnMinMax (o : Opts) : List String :=
  if o.effMax < o.effMin then ["Dial min is greater than the max"] else []

/-- Semimajorscale adjustment of viewidget.py:229-236: a nonzero
semimajorscale that is >= majorscale, or that does not divide majorscale
evenly, is reset to 0 with a warning. -/
def semiAdjusted (o : Opts) : ℚ × List String :=
  if o.effSemimajorscale ≠ 0 then
    if o.effSemimajorscale ≥ o.effMajorscale then
      (0, ["Dial semimajorscale greater than or equal to majorscale"])
    else if pyMod o.effMajorscale o.effSemimajorscale ≠ 0 then
      (0, ["Dial semimajorscale must be a factor of the majorscale"])
    else (o.effSemimajorscale, [])
  else (o.effSemimajorscale, [])

/-- Casewidth clamp of viewidget.py:238-243: size/casewidth < 10 clamps
the casewidth to size/10 with a warning; casewidth=0 escapes through the
caught ZeroDivisionError and is kept. -/
def cwAdjusted (o : Opts) : ℚ × List String :=
  if o.effCasewidth = 0 then (o.effCasewidth, [])
  else if o.effSize / o.effCasewidth < 10 then
    (o.effSize / 10, ["Dial casewidth must be less than or equal to 1/10 the size"])
  else (o.effCasewidth, [])

/-- Bound flag before the explicit bound kwarg is applied: self.bound
starts True (viewidget.py:136) and is set False while parsing an extent
of magnitude 360 (viewidget.py:177-178). -/
def boundDefault (o : Opts) : Bool :=
  match o.extent with
  | some e => decide ¬(|e| = 360)
  | none => true

/-- Widget state assembled by Dial.__init__ just before the final
self.set_value(initvalue) call: self.value is still None and the needle
polygon is drawn pointing at angle 0 (viewidget.py:333-338). -/
def initState (o : Opts) : State :=
  { value := none, min := o.effMin, max := o.effMax, start := o.effStart,
    end_ := o.effStart + o.effExtent,
    bound := o.bound.getD (boundDefault o),
    outofbounds := false, needleAngle := 0,
    display := o.withdisplay.getD true, displayroundto := 1,
    displayText := none, displayAlert := false,
    size := o.effSize, casewidth := (cwAdjusted o).1,
    majorscale := o.effMajorscale, semimajorscale := (semiAdjusted o).1,
    minorscale := o.effMinorscale }

/-- Embedding of Dial.__init__, viewidget.py:109-349.  The source parses
the kwargs in dict order and raises ViewidgetError on the first bad one;
whether some error is raised does not depend on that order, so the checks
are sequenced here in docstring order, followed by the min=max check of
viewidget.py:221.  The non-fatal paths accumulate warning messages.
Drawing is pure canvas output; the state-relevant outcome is the field
assignments plus the final self.set_value(initvalue) call
(viewidget.py:347). -/
def init (o : Opts) : Except String (State × List String) :=
  if o.unknown then .error "Dial init keyword unknown"
  else if o.effSize ≤ 0 then .error "Dial size must be greater than zero"
  else if o.effCasewidth < 0 then
    .error "Dial casewidth must be greater than or equal to zero"
  else if 360 ≤ |o.effStart| then
    .error "Dial start angle must be smaller than 360 degrees in magnitude"
  else if 360 < |o.effExtent| then
    .error "Dial extent angle must be smaller than or equal to 360 degrees in magnitude"
  else if o.effMajorscale ≤ 0 then .error "Dial majorscale must be greater than zero"
  else if o.effSemimajorscale < 0 then
    .error "Dial semimajorscale must be greater than or equal to zero"
  else if o.effMinorscale < 0 then
    .error "Dial minorscale must be greater than or equal to zero"
  else if o.effMin = o.effMax then .error "Dial min cannot be equal to the max"
  else
    .ok (set_value (initState o) o.value,
      warnMinMax o ++ (semiAdjusted o).2 ++ (cwAdjusted o).2)

/-- Needle/value coherence: the needle points at the angle that
set_value computes for the stored value.  Established by the
self.set_value(initvalue) call at the end of __init__ and preserved by
every later set_value. -/
def NeedleInv (s : State) : Prop :=
  ∀ v₀, s.value = some v₀ → s.needleAngle = (angleOob s v₀).1

/-- Concrete Dial state used by witnesses: a bound increasing dial over
[0, 10] with start 225, extent -270 (end -45), needle at the start. -/
def exState : State :=
  { value := some 0, min := 0, max := 10, start := 225, end_ := -45,
    bound := true, outofbounds := false, needleAngle := 225,
    display := false, displayroundto := 1, displayText := none,
    displayAlert := false, size := 300, casewidth := 15,
    majorscale := 2, semimajorscale := 1, minorscale := 0 }

end Dial

/-- Embedding of colorsys.rgb_to_hls (CPython), used at viewidget.py:624
and 639.  Inputs and outputs in [0, 1]; exact rational arithmetic. -/
def rgb_to_hls (r g b : ℚ) : ℚ × ℚ × ℚ :=
  let maxc := max r (max g b)
  let minc := min r (min g b)
  let l := (maxc + minc) / 2
  if minc = maxc then (0, l, 0)
  else
    let rangec := maxc - minc
    let s :=
      if l ≤ 1/2 then rangec / (maxc + minc) else rangec / (2 - maxc - minc)
    let rc := (maxc - r) / rangec
    let gc := (maxc - g) / rangec
    let bc := (maxc - b) / rangec
    let h :=
      if r = maxc then bc - gc
      else if g = maxc then 2 + rc - bc
      else 4 + gc - rc
    (pyMod (h / 6) 1, l, s)

/-- Embedding of colorsys._v, the hue ramp helper of hls_to_rgb. -/
def hlsV (m1 m2 hue : ℚ) : ℚ :=
  let hue := pyMod hue 1
  if hue < 1/6 then m1 + (m2 - m1) * hue * 6
  else if hue < 1/2 then m2
  else if hue < 2/3 then m1 + (m2 - m1) * (2/3 - hue) * 6
  else m1

/-- Embedding of colorsys.hls_to_rgb (CPython), used at
viewidget.py:625-630, 658 and 673. -/
def hls_to_rgb (h l s : ℚ) : ℚ × ℚ × ℚ :=
  if s = 0 then (l, l, l)
  else
    let m2 := if l ≤ 1/2 then l * (1 + s) else l + s - l * s
    let m1 := 2 * l - m2
    (hlsV m1 m2 (h + 1/3), hlsV m1 m2 h, hlsV m1 m2 (h - 1/3))

/-- Hexadecimal digit character (lowercase), for the %04x format. -/
def hexDigitChar (n : ℕ) : Char :=
  if n < 10 then Char.ofNat (48 + n) else Char.ofNat (87 + n)

/-- Four-digit lowercase hexadecimal rendering of a 16-bit channel,
matching the %04x conversion for the values (at most 0xffff) produced by
the module. -/
def hex4 (n : ℕ) : String :=
  String.mk [hexDigitChar (n / 4096 % 16), hexDigitChar (n / 256 % 16),
    hexDigitChar (n / 16 % 16), hexDigitChar (n % 16)]

/-- Color string "#%04x%04x%04x" built from a 16-bit RGB triple
(viewidget.py:631, 637, 657, 673). -/
def fmtColor (c : ℕ × ℕ × ℕ) : String :=
  "#" ++ hex4 c.1 ++ hex4 c.2.1 ++ hex4 c.2.2

/-- int(round(x * 65535, 0)): scale a [0,1] channel to 16 bits with
Python round-half-to-even (the int() truncation is exact on the already
integral round(, 0) result). -/
def scale16 (x : ℚ) : ℕ := (roundHalfEven (x * 65535)).toNat

/-- scale16 applied to each channel of an rgb triple. -/
def scaleTriple (t : ℚ × ℚ × ℚ) : ℕ × ℕ × ℕ :=
  (scale16 t.1, scale16 t.2.1, scale16 t.2.2)

/-- Python bit test n & 2**k != 0 with Python (two's-complement) negative
semantics, via floor division: used for the reflectstyle flags at
viewidget.py:519-527 and 555. -/
def pyTestBit (n : ℤ) (k : ℕ) : Bool := (Int.fdiv n (2 ^ k)).emod 2 = 1

namespace LED

/-- Callbacks that the LED hands to Tk's after(): self.blink, or the
inner _fade closure together with its argument (the remaining time) and
the captured mutable data (the latency deque and the target
brightness/targetremainingtime of the fade in progress). -/
inductive Cb where
  | blinkCb : Cb
  | fadeCb : ℚ → List ℚ → ℚ → ℚ → Cb
deriving DecidableEq

/-- True for the blink callback. -/
def isBlinkCb : Cb → Bool
  | .blinkCb => true
  | _ => false

/-- True for a fade callback. -/
def isFadeCb : Cb → Bool
  | .fadeCb _ _ _ _ => true
  | _ => false

/-- The Tk timer queue as the LED sees it: the pending callbacks with
their ids, and a fresh-id counter.  Tk after-ids are distinct and truthy;
ids here start at 1 so that the Python initialisation fadeID=blinkID=0
is falsy.  Delays play no role because delivery order is chosen by the
fire oracle. -/
structure Sched where
  pending : List (ℕ × Cb)
  nextID : ℕ
deriving DecidableEq

/-- self.after(delay, cb): returns a fresh id and queues the callback. -/
def Sched.after (sc : Sched) (cb : Cb) : ℕ × Sched :=
  (sc.nextID, { pending := sc.pending ++ [(sc.nextID, cb)], nextID := sc.nextID + 1 })

/-- self.after_cancel(i): removes the callback with id i if still
pending; cancelling an already-fired or already-cancelled id is a no-op,
as in Tk. -/
def Sched.cancel (sc : Sched) (i : ℕ) : Sched :=
  { sc with pending := sc.pending.filter (fun p => p.1 ≠ i) }

/-- The self.current dict (viewidget.py:560): canvas fill of the led
oval, canvas outline of the reflection arc (None until first set, as at
construction), and the current brightness. -/
structure Current where
  led : Option String
  reflection : Option String
  brightness : ℚ
deriving DecidableEq

/-- A full color assignment, the shape of self.offcolor / self.oncolor
(viewidget.py:631-632, 637). -/
structure ColorSet where
  led : String
  reflection : String
  brightness : ℚ
deriving DecidableEq

/-- State of an LED widget (viewidget.py:411-727): the instance
attributes of __init__ plus the timer queue.  Colors are the strings
pushed to the canvas; winfo_rgb-resolved colors are 16-bit RGB triples. -/
structure State where
  state : Bool
  faderate : ℤ
  blinkrate : ℤ
  fadeID : ℕ
  blinkID : ℕ
  fadetimestep : ℚ
  isblinking : Bool
  current : Current
  offcolor : ColorSet
  oncolor : ColorSet
  bulbcolor_rgb : ℕ × ℕ × ℕ
  diodecolor_rgb : ℕ × ℕ × ℕ
  bulbcolor_hls : ℚ × ℚ × ℚ
  oncolor_hls : ℚ × ℚ × ℚ
  usemonotonereflection : Bool
  usereflectquadraticstep : Bool
  reflectvisible : Bool
  size : ℚ
  casewidth : ℚ
  sched : Sched

/-- Embedding of LED._change_color, viewidget.py:567-574, for the calls
the module makes (always with the full led/reflection/brightness key
set, so the unknown-key branch is unreachable): updates self.current and
pushes the colors to the canvas. -/
def _change_color (s : State) (c : ColorSet) : State :=
  { s with current :=
      { led := some c.led, reflection := some c.reflection, brightness := c.brightness } }

/-- Embedding of LED.set_brightness, viewidget.py:642-677.  level <= 0
resets to the off colors; otherwise the brightness can only change if the
LED is on or the level decreases; level >= 1 gives the on colors; in
between, the led color is the on color re-lit to luminosity
l*(0.75*level+0.25) (falling back to the off colors below 20 percent of
the bulb luminosity) and the reflection ramps toward white. -/
def set_brightness (s : State) (level : ℚ) : State :=
  if level ≤ 0 then _change_color s s.offcolor
  else if s.state ∨ level < s.current.brightness then
    if level ≥ 1 then _change_color s s.oncolor
    else
      let lum := s.oncolor_hls.2.1 * (3/4 * level + 1/4)
      if lum < 1/5 * s.bulbcolor_hls.2.1 then
        _change_color s
          { led := s.offcolor.led, reflection := s.offcolor.reflection, brightness := level }
      else
        let color := fmtColor (scaleTriple (hls_to_rgb s.oncolor_hls.1 lum s.oncolor_hls.2.2))
        let sat := if s.usemonotonereflection then 0 else s.oncolor_hls.2.2
        let targetlum :=
          if s.usemonotonereflection then s.bulbcolor_hls.2.1 else s.oncolor_hls.2.1
        let power : ℕ := if s.usereflectquadraticstep then 2 else 1
        let lum2 := (1 - 1/2 * targetlum) * level ^ power + 1/2 * targetlum
        let reflect := fmtColor (scaleTriple (hls_to_rgb s.oncolor_hls.1 lum2 sat))
        _change_color s { led := color, reflection := reflect, brightness := level }
  else s

/-- Embedding of LED.change_color, viewidget.py:619-640: recompute the
off colors from the bulb color (luminosity dimmed to 1/4 for the led,
1/2 for the reflection), store the diode color, recompute the on colors
(channelwise AND of diode and bulb), and re-apply the current
brightness. -/
def change_color (s : State) (diodecolor bulbcolor : Option (ℕ × ℕ × ℕ)) : State :=
  let s :=
    match bulbcolor with
    | some b =>
      let hls := rgb_to_hls ((b.1 : ℚ) / 65535) ((b.2.1 : ℚ) / 65535) ((b.2.2 : ℚ) / 65535)
      let offled := scaleTriple (hls_to_rgb hls.1 (1/4 * hls.2.1) hls.2.2)
      let sat := if s.usemonotonereflection then 0 else hls.2.2
      let reflect := scaleTriple (hls_to_rgb hls.1 (1/2 * hls.2.1) sat)
      { s with
        bulbcolor_rgb := b, bulbcolor_hls := hls,
        offcolor := { led := fmtColor offled, reflection := fmtColor reflect, brightness := 0 } }
    | none => s
  let s :=
    match diodecolor with
    | some d => { s with diodecolor_rgb := d }
    | none => s
  let onc : ℕ × ℕ × ℕ :=
    (s.diodecolor_rgb.1 &&& s.bulbcolor_rgb.1,
     s.diodecolor_rgb.2.1 &&& s.bulbcolor_rgb.2.1,
     s.diodecolor_rgb.2.2 &&& s.bulbcolor_rgb.2.2)
  let s :=
    { s with
      oncolor := { led := fmtColor onc, reflection := "#FFFFFF", brightness := 1 },
      oncolor_hls := rgb_to_hls ((onc.1 : ℚ) / 65535) ((onc.2.1 : ℚ) / 65535)
        ((onc.2.2 : ℚ) / 65535) }
  set_brightness s s.current.brightness

/-- Embedding of LED.blink_cancel, viewidget.py:679-683: if self.blinkID
is truthy, cancel it and clear the blinking flag (self.blinkID itself is
not reset). -/
def blink_cancel (s : State) : State :=
  if s.blinkID ≠ 0 then
    { s with sched := s.sched.cancel s.blinkID, isblinking := false }
  else s

/-- Body of the inner _fade(remaintime) closure of LED.fade,
viewidget.py:698-712.  latency/target/targetRemaining are the values
captured by the closure (carried in the scheduled callback); elapsed is
the oracle value of (time() - starttime) * 1000 read at this run. -/
def fadeStep (s : State) (remaintime : ℚ) (latency : List ℚ)
    (target targetRemaining elapsed : ℚ) : State :=
  if remaintime > s.fadetimestep then
    let latency := if latency.length > 10 then latency.tail else latency
    let remainbrightness := target - s.current.brightness
    let deltabrightness := remainbrightness / remaintime * (s.fadetimestep + mean latency)
    let s := set_brightness s (s.current.brightness + deltabrightness)
    let lastremaintime := remaintime
    let remaintime2 := targetRemaining - elapsed
    let latency := latency ++ [lastremaintime - remaintime2]
    let isc := s.sched.after (.fadeCb (remaintime2 - s.fadetimestep) latency target targetRemaining)
    { s with sched := isc.2, fadeID := isc.1 }
  else
    set_brightness s target

/-- Embedding of LED.fade, viewidget.py:694-725: cancel a pending fade
callback, set the state and target brightness, and run the first _fade
step synchronously with a fresh empty latency deque. -/
def fade (s : State) (st : Bool) (elapsed : ℚ) : State :=
  let s := if s.fadeID ≠ 0 then { s with sched := s.sched.cancel s.fadeID } else s
  let target : ℚ := if st then 1 else 0
  let s := { s with state := st }
  let targetRemaining := |target - s.current.brightness| * (s.faderate : ℚ)
  fadeStep s targetRemaining [] target targetRemaining elapsed

/-- Embedding of LED.turn, viewidget.py:595-605.  Turning off always
cancels blinking and fades out if currently on; turning on only acts
from the off, non-blinking state, scheduling a blink callback when a
blinkrate is set and fading in. -/
def turn (s : State) (st : Bool) (elapsed : ℚ) : State :=
  if ¬ st then
    let s := blink_cancel s
    if s.state then fade s false elapsed else s
  else if ¬ s.state ∧ ¬ s.isblinking then
    let s :=
      if s.blinkrate ≠ 0 then
        let isc := s.sched.after .blinkCb
        { s with sched := isc.2, blinkID := isc.1, isblinking := true }
      else s
    fade s true elapsed
  else s

/-- LED.turnon, viewidget.py:607-609. -/
def turnon (s : State) (elapsed : ℚ) : State := turn s true elapsed

/-- LED.turnoff, viewidget.py:611-613. -/
def turnoff (s : State) (elapsed : ℚ) : State := turn s false elapsed

/-- LED.change_state, viewidget.py:615-617. -/
def change_state (s : State) (elapsed : ℚ) : State := turn s (!s.state) elapsed

/-- Embedding of LED.blink, viewidget.py:685-692: cancel the pending
blink callback, toggle the state, and reschedule itself when the toggle
turned the LED off. -/
def blink (s : State) (elapsed : ℚ) : State :=
  let s := blink_cancel s
  if s.blinkrate ≠ 0 then
    let s := change_state s elapsed
    if ¬ s.state then
      let isc := s.sched.after .blinkCb
      { s with sched := isc.2, blinkID := isc.1, isblinking := true }
    else s
  else s

/-- Embedding of LED.set_blinkrate, viewidget.py:576-586. -/
def set_blinkrate (s : State) (rate : ℚ) (elapsed : ℚ) : Except String State :=
  if rate ≥ 0 then
    let s := { s with blinkrate := roundHalfEven rate }
    if s.blinkrate ≠ 0 ∧ s.state ∧ ¬ s.isblinking then .ok (blink s elapsed)
    else if s.blinkrate = 0 ∧ s.isblinking then
      let s := blink_cancel s
      .ok (turnon s elapsed)
    else .ok s
  else .error "LED blinkrate must be greater than or equal to zero"

/-- Embedding of LED.set_faderate, viewidget.py:588-593. -/
def set_faderate (s : State) (rate : ℚ) : Except String State :=
  if rate ≥ 0 then .ok { s with faderate := roundHalfEven rate }
  else .error "LED faderate must be greater than or equal to zero"

/-- Tk event loop delivering the due callback with id i: it is removed
from the queue and its body runs (viewidget.py:685-692 for blink,
698-712 for _fade).  A stale id fires nothing. -/
def fire (s : State) (i : ℕ) (elapsed : ℚ) : State :=
  match s.sched.pending.find? (fun p => p.1 = i) with
  | none => s
  | some p =>
    let s := { s with sched := s.sched.cancel i }
    match p.2 with
    | .blinkCb => blink s elapsed
    | .fadeCb remaintime latency target targetRemaining =>
      fadeStep s remaintime latency target targetRemaining elapsed

/-- Constructor keyword arguments of LED.__init__ (viewidget.py:442-515).
diodecolor/bulbcolor are given as their winfo_rgb resolutions (16-bit
RGB triples, the toolkit boundary); reflectstyleBad=true models passing a
reflectstyle that is not an integer (the caught TypeError path). -/
structure Opts where
  size : Option ℚ := none
  casewidth : Option ℚ := none
  state : Option Bool := none
  diodecolor : Option (ℕ × ℕ × ℕ) := none
  bulbcolor : Option (ℕ × ℕ × ℕ) := none
  reflectstyle : Option ℤ := none
  reflectstyleBad : Bool := false
  faderate : Option ℚ := none
  blinkrate : Option ℚ := none
  unknown : Bool := false

/-- Effective size (default 100). -/
def Opts.effSize (o : Opts) : ℚ := o.size.getD 100

/-- Effective casewidth (default 10). -/
def Opts.effCasewidth (o : Opts) : ℚ := o.casewidth.getD 10

/-- Effective diode color (default 'white' = 0xffff per channel). -/
def Opts.effDiode (o : Opts) : ℕ × ℕ × ℕ := o.diodecolor.getD (65535, 65535, 65535)

/-- Effective bulb color (default 'white'). -/
def Opts.effBulb (o : Opts) : ℕ × ℕ × ℕ := o.bulbcolor.getD (65535, 65535, 65535)

/-- Effective reflectstyle: default 0x7, kept when the passed value was
not an integer (warning path). -/
def Opts.effReflect (o : Opts) : ℤ :=
  if o.reflectstyleBad then 7 else o.reflectstyle.getD 7

/-- Casewidth clamp of viewidget.py:529-534, identical in shape to the
Dial one. -/
def cwAdjusted (o : Opts) : ℚ × List String :=
  if o.effCasewidth = 0 then (o.effCasewidth, [])
  else if o.effSize / o.effCasewidth < 10 then
    (o.effSize / 10, ["LED casewidth must be less than or equal to 1/10 the size"])
  else (o.effCasewidth, [])

/-- Warning for a non-integer reflectstyle (viewidget.py:505-509). -/
def warnReflect (o : Opts) : List String :=
  if o.reflectstyleBad then
    ["LED could not set reflectionsytle: must be an integer"]
  else []

/-- State assembled by LED.__init__ before the color and initial-state
calls: attribute defaults of viewidget.py:467-482 with the parsed
options applied (faderate/blinkrate already set through their setters,
which cannot trigger a blink because the state is still OFF). -/
def initState (o : Opts) : State :=
  { state := false,
    faderate := roundHalfEven (o.faderate.getD 0),
    blinkrate := roundHalfEven (o.blinkrate.getD 0),
    fadeID := 0, blinkID := 0, fadetimestep := 20, isblinking := false,
    current := { led := none, reflection := none, brightness := 0 },
    offcolor := { led := "", reflection := "", brightness := 0 },
    oncolor := { led := "", reflection := "", brightness := 0 },
    bulbcolor_rgb := (0, 0, 0), diodecolor_rgb := (0, 0, 0),
    bulbcolor_hls := (0, 0, 0), oncolor_hls := (0, 0, 0),
    usemonotonereflection := ! pyTestBit (o.effReflect) 1,
    usereflectquadraticstep := pyTestBit (o.effReflect) 2,
    reflectvisible := pyTestBit (o.effReflect) 0,
    size := o.effSize, casewidth := (cwAdjusted o).1,
    sched := { pending := [], nextID := 1 } }

/-- Embedding of LED.__init__, viewidget.py:442-565: validation (size,
casewidth, faderate, blinkrate, unknown keyword), reflectstyle flags,
casewidth clamp, then self.change_color(diodecolor, bulbcolor) and
self.turn(initstate).  elapsed is the time oracle for a fade started by
an ON initial state. -/
def init (o : Opts) (elapsed : ℚ) : Except String (State × List String) :=
  if o.unknown then .error "LED init keyword unknown"
  else if o.effSize ≤ 0 then .error "LED size must be greater than zero"
  else if o.effCasewidth < 0 then
    .error "LED casewidth must be greater than or equal to zero"
  else if o.faderate.getD 0 < 0 then
    .error "LED faderate must be greater than or equal to zero"
  else if o.blinkrate.getD 0 < 0 then
    .error "LED blinkrate must be greater than or equal to zero"
  else
    let s1 := change_color (initState o) (some o.effDiode) (some o.effBulb)
    let s2 := turn s1 (o.state.getD false) elapsed
    .ok (s2, warnReflect o ++ (cwAdjusted o).2)

/-- Number of pending blink callbacks. -/
def countB (s : State) : ℕ := s.sched.pending.countP (fun p => isBlinkCb p.2)

/-- Number of pending fade callbacks. -/
def countF (s : State) : ℕ := s.sched.pending.countP (fun p => isFadeCb p.2)

/-- Scheduler sanity invariant of the LED: at most one blink and at most
one fade callback pending; any pending blink callback carries the
current self.blinkID and the blinking flag is set; any pending fade
callback carries the current self.fadeID; ids are positive, below the
fresh counter, and a blink id never collides with a fade id unless both
are the falsy 0; the blinking flag implies a truthy blinkID. -/
def Inv (s : State) : Prop :=
  s.sched.pending.countP (fun p => isBlinkCb p.2) ≤ 1 ∧
  s.sched.pending.countP (fun p => isFadeCb p.2) ≤ 1 ∧
  (∀ p ∈ s.sched.pending, isBlinkCb p.2 = true → p.1 = s.blinkID ∧ s.isblinking = true) ∧
  (∀ p ∈ s.sched.pending, isFadeCb p.2 = true → p.1 = s.fadeID) ∧
  (∀ p ∈ s.sched.pending, 0 < p.1 ∧ p.1 < s.sched.nextID) ∧
  (s.isblinking = true → s.blinkID ≠ 0) ∧
  (s.blinkID = s.fadeID → s.blinkID = 0) ∧
  s.blinkID < s.sched.nextID ∧ s.fadeID < s.sched.nextID ∧ 0 < s.sched.nextID

/-- Concrete LED state used by witnesses: a plain off LED with white
colors, no pending callbacks and a blink rate of 500 ms. -/
def exState : State :=
  { state := false, faderate := 0, blinkrate := 500,
    fadeID := 0, blinkID := 0, fadetimestep := 20, isblinking := false,
    current :=
      { led := some "#ffffffffffff", reflection := some "#ffffffffffff", brightness := 0 },
    offcolor := { led := "#ffffffffffff", reflection := "#ffffffffffff", brightness := 0 },
    oncolor := { led := "#ffffffffffff", reflection := "#FFFFFF", brightness := 1 },
    bulbcolor_rgb := (65535, 65535, 65535), diodecolor_rgb := (65535, 65535, 65535),
    bulbcolor_hls := (0, 1, 0), oncolor_hls := (0, 1, 0),
    usemonotonereflection := false, usereflectquadraticstep := true,
    reflectvisible := true, size := 100, casewidth := 10,
    sched := { pending := [], nextID := 1 } }

end LED

/-- Dial.set_value never touches the configuration fields of the state:
it only rewrites value, needleAngle, outofbounds and the display fields. -/
theorem Dial.set_value_fields (s : Dial.State) (v? : Option ℚ) :
    (Dial.set_value s v?).min = s.min ∧ (Dial.set_value s v?).max = s.max ∧
    (Dial.set_value s v?).start = s.start ∧ (Dial.set_value s v?).end_ = s.end_ ∧
    (Dial.set_value s v?).bound = s.bound ∧ (Dial.set_value s v?).size = s.size ∧
    (Dial.set_value s v?).casewidth = s.casewidth ∧
    (Dial.set_value s v?).semimajorscale = s.semimajorscale ∧
    (Dial.set_value s v?).display = s.display ∧
    (Dial.set_value s v?).displayroundto = s.displayroundto := by
  unfold Dial.set_value
  by_cases h : s.value = some (v?.getD s.min)
  · simp [h]
  · by_cases h2 : s.display <;> simp [h, h2]

/-- A successful Dial.init is exactly set_value applied to the assembled
initial state, with the accumulated warnings, and requires every
validation check to pass. -/
theorem Dial.init_ok_iff (o : Dial.Opts) (s : Dial.State) (ws : List String) :
    Dial.init o = .ok (s, ws) ↔
      (o.unknown = false ∧ 0 < o.effSize ∧ 0 ≤ o.effCasewidth ∧
       |o.effStart| < 360 ∧ |o.effExtent| ≤ 360 ∧ 0 < o.effMajorscale ∧
       0 ≤ o.effSemimajorscale ∧ 0 ≤ o.effMinorscale ∧ o.effMin ≠ o.effMax ∧
       s = Dial.set_value (Dial.initState o) o.value ∧
       ws = Dial.warnMinMax o ++ (Dial.semiAdjusted o).2 ++ (Dial.cwAdjusted o).2) := by
  unfold Dial.init
  split_ifs with h1 h2 h3 h4 h5 h6 h7 h8 h9
  · simp [h1]
  · simp [not_lt.mpr h2]
  · simp [not_le.mpr h3]
  · simp [not_lt.mpr h4]
  · simp [not_le.mpr h5]
  · simp [not_lt.mpr h6]
  · simp [not_le.mpr h7]
  · simp [not_le.mpr h8]
  · simp [h9]
  · simp only [Bool.not_eq_true] at h1
    simp [h1, not_le.mp h2, not_lt.mp h3, not_le.mp h4, not_lt.mp h5,
      not_le.mp h6, not_lt.mp h7, not_lt.mp h8, h9, eq_comm]

/-- Update branch of Dial.set_value: when the stored value differs, the
new value, needle angle and out-of-bounds flag. -/
theorem Dial.set_value_update (s : Dial.State) (v? : Option ℚ)
    (h : ¬ s.value = some (v?.getD s.min)) :
    (Dial.set_value s v?).value = some (v?.getD s.min) ∧
    (Dial.set_value s v?).needleAngle = (Dial.angleOob s (v?.getD s.min)).1 ∧
    (Dial.set_value s v?).outofbounds = (Dial.angleOob s (v?.getD s.min)).2 := by
  by_cases h2 : s.display <;> simp [Dial.set_value, h, h2]

/-- angleOob reads only the configuration fields. -/
theorem Dial.angleOob_congr (s t : Dial.State) (hmin : t.min = s.min)
    (hmax : t.max = s.max) (hstart : t.start = s.start) (hend : t.end_ = s.end_)
    (hbound : t.bound = s.bound) (v : ℚ) :
    Dial.angleOob t v = Dial.angleOob s v := by
  unfold Dial.angleOob
  rw [hmin, hmax, hstart, hend, hbound]

/-- For a value between min and max the hard stops do not engage and the
angle is the linear interpolation. -/
theorem Dial.angleOob_between (s : Dial.State) (v : ℚ) (hne : s.min ≠ s.max)
    (hb : (s.min ≤ v ∧ v ≤ s.max) ∨ (s.max ≤ v ∧ v ≤ s.min)) :
    (Dial.angleOob s v).1
      = s.start + (v - s.min) * (s.end_ - s.start) / (s.max - s.min) := by
  rcases hb with ⟨h1, h2⟩ | ⟨h1, h2⟩
  · have hlt : s.min < s.max := (le_trans h1 h2).lt_of_ne hne
    by_cases hbd : s.bound = true <;>
      simp [Dial.angleOob, hbd, hlt, not_lt.mpr h1, not_lt.mpr h2] <;> ring
  · have hlt : s.max < s.min := (le_trans h1 h2).lt_of_ne (Ne.symm hne)
    by_cases hbd : s.bound = true <;>
      simp [Dial.angleOob, hbd, not_lt.mpr hlt.le, not_lt.mpr h1, not_lt.mpr h2] <;> ring

/-- NeedleInv is preserved by set_value. -/
theorem Dial.set_value_inv (s : Dial.State) (v? : Option ℚ)
    (hinv : Dial.NeedleInv s) : Dial.NeedleInv (Dial.set_value s v?) := by
  intro v₀ h₀
  by_cases h : s.value = some (v?.getD s.min)
  · have e : Dial.set_value s v? = s := by simp [Dial.set_value, h]
    rw [e] at h₀ ⊢
    exact hinv v₀ h₀
  · obtain ⟨hval, hang, -⟩ := Dial.set_value_update s v? h
    rw [hval] at h₀
    obtain rfl : v?.getD s.min = v₀ := by injection h₀
    obtain ⟨f1, f2, f3, f4, f5, -⟩ := Dial.set_value_fields s v?
    rw [hang,
      Dial.angleOob_congr s (Dial.set_value s v?) f1 f2 f3 f4 f5 (v?.getD s.min)]

/-- C1: construction sets end = start + extent and points the needle at
the stored value (NeedleInv); NeedleInv is preserved by every set_value;
and for any dial with min different from max and any value v between min
and max, set_value(v) leaves the needle at the angle
start + (v - min) * (end - start) / (max - min). -/
theorem dial_set_value_interpolation :
    (∀ (o : Dial.Opts) (s : Dial.State) (ws : List String),
        Dial.init o = .ok (s, ws) →
        s.end_ = o.effStart + o.effExtent ∧ Dial.NeedleInv s) ∧
    (∀ (s : Dial.State) (v? : Option ℚ),
        Dial.NeedleInv s → Dial.NeedleInv (Dial.set_value s v?)) ∧
    (∀ (s : Dial.State) (v : ℚ), s.min ≠ s.max →
        ((s.min ≤ v ∧ v ≤ s.max) ∨ (s.max ≤ v ∧ v ≤ s.min)) →
        Dial.NeedleInv s →
        (Dial.set_value s (some v)).needleAngle
          = s.start + (v - s.min) * (s.end_ - s.start) / (s.max - s.min)) := by
  refine ⟨?_, Dial.set_value_inv, ?_⟩
  · intro o s ws h
    rw [Dial.init_ok_iff] at h
    obtain ⟨-, -, -, -, -, -, -, -, -, rfl, -⟩ := h
    constructor
    · rw [(Dial.set_value_fields _ _).2.2.2.1]
      rfl
    · refine Dial.set_value_inv _ _ ?_
      intro v₀ h₀
      simp [Dial.initState] at h₀
  · intro s v hne hb hinv
    by_cases h : s.value = some v
    · have e : Dial.set_value s (some v) = s := by simp [Dial.set_value, h]
      rw [e]
      rw [hinv v h]
      exact Dial.angleOob_between s v hne hb
    · have h' : ¬ s.value = some ((some v).getD s.min) := by simpa using h
      obtain ⟨-, hang, -⟩ := Dial.set_value_update s (some v) h'
      simp only [Option.getD_some] at hang
      rw [hang]
      exact Dial.angleOob_between s v hne hb

/-- Witness for C1: on the example dial over [0, 10] with start 225 and
end -45, set_value(5) puts the needle at 90 degrees, the interpolated
angle. -/
theorem dial_set_value_interpolation_witness :
    Dial.exState.min ≠ Dial.exState.max ∧
    (Dial.set_value Dial.exState (some 5)).needleAngle
      = Dial.exState.start + (5 - Dial.exState.min)
          * (Dial.exState.end_ - Dial.exState.start)
          / (Dial.exState.max - Dial.exState.min) := by
  constructor
  · show (0 : ℚ) ≠ 10
    norm_num
  · refine dial_set_value_interpolation.2.2 Dial.exState 5 (by norm_num [Dial.exState]) ?_ ?_
    · left
      constructor <;> norm_num [Dial.exState]
    · intro v₀ h₀
      obtain rfl : (0 : ℚ) = v₀ := by
        simpa [Dial.exState] using h₀
      norm_num [Dial.exState, Dial.angleOob]

/-- C6: calling set_value with the currently stored value, or with None
when the stored value equals min, changes nothing at all: the resulting
state (value, needle, out-of-bounds flag, display) is the input state. -/
theorem dial_set_value_nochange (s : Dial.State) (v : ℚ) :
    (s.value = some v → Dial.set_value s (some v) = s) ∧
    (s.value = some s.min → Dial.set_value s none = s) := by
  constructor
  · intro h
    simp [Dial.set_value, h]
  · intro h
    simp [Dial.set_value, h]

/-- Witness for C6: the example dial stores its min 0, and both
set_value(0) and set_value(None) leave it untouched. -/
theorem dial_set_value_nochange_witness :
    Dial.set_value Dial.exState (some 0) = Dial.exState ∧
    Dial.set_value Dial.exState none = Dial.exState :=
  ⟨(dial_set_value_nochange Dial.exState 0).1 rfl,
   (dial_set_value_nochange Dial.exState 0).2 rfl⟩

/-- C3: Dial construction raises ViewidgetError exactly when some option
is out of range: size <= 0, casewidth < 0, |start| >= 360, |extent| > 360,
majorscale <= 0, semimajorscale < 0, minorscale < 0, min = max, or an
unrecognized keyword; with in-range numeric options it does not raise. -/
theorem dial_init_error_iff (o : Dial.Opts) :
    (∃ msg, Dial.init o = .error msg) ↔
      (o.effSize ≤ 0 ∨ o.effCasewidth < 0 ∨ 360 ≤ |o.effStart| ∨ 360 < |o.effExtent| ∨
       o.effMajorscale ≤ 0 ∨ o.effSemimajorscale < 0 ∨ o.effMinorscale < 0 ∨
       o.effMin = o.effMax ∨ o.unknown = true) := by
  unfold Dial.init
  split_ifs with h1 h2 h3 h4 h5 h6 h7 h8 h9 <;> simp_all

/-- C4: a nonzero semimajorscale that is >= majorscale or does not evenly
divide majorscale does not make construction raise: construction succeeds,
emits the corresponding non-fatal warning, and the built dial has its
semimajorscale disabled (0). -/
theorem dial_semimajor_warning (o : Dial.Opts)
    (hunk : o.unknown = false) (hsize : 0 < o.effSize) (hcw : 0 ≤ o.effCasewidth)
    (hstart : |o.effStart| < 360) (hext : |o.effExtent| ≤ 360)
    (hmaj : 0 < o.effMajorscale) (hminor : 0 ≤ o.effMinorscale)
    (hmm : o.effMin ≠ o.effMax)
    (hsemi : 0 < o.effSemimajorscale)
    (hbad : o.effMajorscale ≤ o.effSemimajorscale ∨
      pyMod o.effMajorscale o.effSemimajorscale ≠ 0) :
    ∃ s ws, Dial.init o = .ok (s, ws) ∧ s.semimajorscale = 0 ∧
      ("Dial semimajorscale greater than or equal to majorscale" ∈ ws ∨
       "Dial semimajorscale must be a factor of the majorscale" ∈ ws) := by
  have hok : Dial.init o = .ok (Dial.set_value (Dial.initState o) o.value,
      Dial.warnMinMax o ++ (Dial.semiAdjusted o).2 ++ (Dial.cwAdjusted o).2) :=
    (Dial.init_ok_iff o _ _).mpr
      ⟨hunk, hsize, hcw, hstart, hext, hmaj, hsemi.le, hminor, hmm, rfl, rfl⟩
  have hsv : (Dial.set_value (Dial.initState o) o.value).semimajorscale
      = (Dial.semiAdjusted o).1 :=
    (Dial.set_value_fields _ _).2.2.2.2.2.2.2.1
  by_cases hge : o.effSemimajorscale ≥ o.effMajorscale
  · have he : Dial.semiAdjusted o
        = (0, ["Dial semimajorscale greater than or equal to majorscale"]) := by
      unfold Dial.semiAdjusted
      rw [if_pos hsemi.ne', if_pos hge]
    refine ⟨_, _, hok, ?_, Or.inl ?_⟩
    · rw [hsv, he]
    · simp [he]
  · have hmod : pyMod o.effMajorscale o.effSemimajorscale ≠ 0 := by
      rcases hbad with hb | hb
      · exact absurd hb hge
      · exact hb
    have he : Dial.semiAdjusted o
        = (0, ["Dial semimajorscale must be a factor of the majorscale"]) := by
      unfold Dial.semiAdjusted
      rw [if_pos hsemi.ne', if_neg hge, if_pos hmod]
    refine ⟨_, _, hok, ?_, Or.inr ?_⟩
    · rw [hsv, he]
    · simp [he]

/-- Witness for C4: semimajorscale 7 with the default majorscale 20 (7
does not divide 20) builds a dial with semimajorscale disabled and the
factor warning emitted. -/
theorem dial_semimajor_warning_witness :
    ∃ s ws, Dial.init { semimajorscale := some 7 } = .ok (s, ws) ∧
      s.semimajorscale = 0 ∧
      ("Dial semimajorscale greater than or equal to majorscale" ∈ ws ∨
       "Dial semimajorscale must be a factor of the majorscale" ∈ ws) :=
  dial_semimajor_warning _ rfl
    (by norm_num [Dial.Opts.effSize])
    (by norm_num [Dial.Opts.effCasewidth])
    (by norm_num [Dial.Opts.effStart])
    (by norm_num [Dial.Opts.effExtent])
    (by norm_num [Dial.Opts.effMajorscale])
    (by norm_num [Dial.Opts.effMinorscale])
    (by norm_num [Dial.Opts.effMin, Dial.Opts.effMax])
    (by norm_num [Dial.Opts.effSemimajorscale])
    (Or.inr (by norm_num [pyMod, Dial.Opts.effMajorscale, Dial.Opts.effSemimajorscale]))

/-- C2: for every hexadecimal digit 0-15 and its character forms
('0'-'9', 'a'-'f', 'A'-'F'), Digit.set_value installs exactly the
segment mask of the seven-bit table: the integer key and both character
keys of the same digit map to the same mask, every mask fits in 7 bits,
set_value on a key shows segment i exactly when bit i of the mask is set
(and hides all others), and set_value(None) hides all seven segments. -/
theorem digit_set_value_masks :
    (∀ k : Fin 16,
      Digit.lookupMask (.int ((Digit.hexForms.getD k.val (0, "", "")).1))
          = some (Digit.maskOfIdx k) ∧
      Digit.lookupMask (.str ((Digit.hexForms.getD k.val (0, "", "")).2.1))
          = some (Digit.maskOfIdx k) ∧
      Digit.lookupMask (.str ((Digit.hexForms.getD k.val (0, "", "")).2.2))
          = some (Digit.maskOfIdx k) ∧
      Digit.maskOfIdx k < 128) ∧
    (∀ (s : Digit.State) (pv : PyVal) (m : ℕ), Digit.lookupMask pv = some m →
      Digit.set_value s (some pv) = { value := some pv, segOn := Digit.set_mask m }) ∧
    (∀ (k : Fin 16) (i : Fin 7),
      Digit.set_mask (Digit.maskOfIdx k) i = Nat.testBit (Digit.maskOfIdx k) i) ∧
    (∀ (s : Digit.State) (i : Fin 7), (Digit.set_value s none).segOn i = false) ∧
    (∀ s : Digit.State, (Digit.set_value s none).value = none) := by
  refine ⟨by decide, ?_, by decide, ?_, ?_⟩
  · intro s pv m h
    simp [Digit.set_value, h]
  · intro s i
    show Digit.set_mask 0 i = false
    revert i; decide
  · intro s; rfl

/-- Witness for C2 at a concrete input: setting the digit 3 on a blank
display installs mask 0b1101011 and stores the value 3. -/
theorem digit_set_value_masks_witness :
    Digit.set_value ⟨some (.int 8), Digit.set_mask 0⟩ (some (.int 3))
      = { value := some (.int 3), segOn := Digit.set_mask 0b1101011 } :=
  digit_set_value_masks.2.1 _ _ _ (by decide)

/-- C8: Digit.set_value is a complete no-op on any input that is neither
a key of the mask table nor None: the state (stored value and all seven
segment states) is returned unchanged. -/
theorem digit_set_value_noop (s : Digit.State) (pv : PyVal)
    (h : Digit.lookupMask pv = none) :
    Digit.set_value s (some pv) = s := by
  simp [Digit.set_value, h]

/-- Witness for C8: the inputs 16, "g" and 3.5 are not keys of the table
and leave a concrete state showing 8 untouched. -/
theorem digit_set_value_noop_witness :
    Digit.set_value ⟨some (.int 8), Digit.set_mask 127⟩ (some (.int 16))
        = ⟨some (.int 8), Digit.set_mask 127⟩ ∧
    Digit.set_value ⟨some (.int 8), Digit.set_mask 127⟩ (some (.str "g"))
        = ⟨some (.int 8), Digit.set_mask 127⟩ ∧
    Digit.set_value ⟨some (.int 8), Digit.set_mask 127⟩ (some (.flt 7 2))
        = ⟨some (.int 8), Digit.set_mask 127⟩ :=
  ⟨digit_set_value_noop _ _ (by decide), digit_set_value_noop _ _ (by decide),
    digit_set_value_noop _ _ (by decide)⟩

/-- C10: mean is total on lists: on the empty list the divisor
max(len, 1) avoids the division by zero and the result is 0, and on any
nonempty list mean returns the sum divided by the length. -/
theorem mean_total :
    mean [] = 0 ∧ ∀ l : List ℚ, l ≠ [] → mean l = l.sum / (l.length : ℚ) := by
  constructor
  · simp [mean]
  · intro l hl
    have h1 : 1 ≤ l.length := List.length_pos.mpr hl
    unfold mean
    rw [Nat.max_eq_left h1]

/-- Witness for C10: the mean of the nonempty list [1, 2, 3]. -/
theorem mean_total_witness :
    mean [1, 2, 3] = ([1, 2, 3] : List ℚ).sum / (([1, 2, 3] : List ℚ).length : ℚ) :=
  mean_total.2 _ (by simp)


/-- C9: while an LED is OFF, set_brightness can never brighten it: for
every level > 0 that is at least the stored brightness the call is a
complete no-op (colors and brightness unchanged); a level <= 0 always
takes effect, applying the off colors. -/
theorem led_set_brightness_off (s : LED.State) (level : ℚ)
    (hoff : s.state = false) (hpos : 0 < level)
    (hge : s.current.brightness ≤ level) :
    LED.set_brightness s level = s ∧
    (∀ l, l ≤ 0 → LED.set_brightness s l = LED._change_color s s.offcolor) := by
  constructor
  · simp [LED.set_brightness, hoff, not_le.mpr hpos, not_lt.mpr hge]
  · intro l hl
    simp [LED.set_brightness, hl]

/-- Witness for C9: brightening the off example LED to 50 percent does
nothing. -/
theorem led_set_brightness_off_witness :
    LED.set_brightness LED.exState (1/2) = LED.exState :=
  (led_set_brightness_off LED.exState (1/2) rfl (by norm_num)
    (by show (0 : ℚ) ≤ 1/2; norm_num)).1

/-- set_brightness only rewrites self.current. -/
theorem LED.sb_core (s : LED.State) (l : ℚ) :
    (LED.set_brightness s l).sched = s.sched ∧
    (LED.set_brightness s l).blinkID = s.blinkID ∧
    (LED.set_brightness s l).fadeID = s.fadeID ∧
    (LED.set_brightness s l).isblinking = s.isblinking ∧
    (LED.set_brightness s l).state = s.state ∧
    (LED.set_brightness s l).blinkrate = s.blinkrate ∧
    (LED.set_brightness s l).faderate = s.faderate ∧
    (LED.set_brightness s l).fadetimestep = s.fadetimestep ∧
    (LED.set_brightness s l).casewidth = s.casewidth ∧
    (LED.set_brightness s l).size = s.size := by
  unfold LED.set_brightness LED._change_color
  dsimp only
  split_ifs <;> simp

/-- change_color only rewrites colors and self.current. -/
theorem LED.cc_core (s : LED.State) (d b : Option (ℕ × ℕ × ℕ)) :
    (LED.change_color s d b).sched = s.sched ∧
    (LED.change_color s d b).blinkID = s.blinkID ∧
    (LED.change_color s d b).fadeID = s.fadeID ∧
    (LED.change_color s d b).isblinking = s.isblinking ∧
    (LED.change_color s d b).state = s.state ∧
    (LED.change_color s d b).blinkrate = s.blinkrate ∧
    (LED.change_color s d b).faderate = s.faderate ∧
    (LED.change_color s d b).fadetimestep = s.fadetimestep ∧
    (LED.change_color s d b).casewidth = s.casewidth ∧
    (LED.change_color s d b).size = s.size := by
  unfold LED.change_color
  rcases b with - | b <;> rcases d with - | d <;> dsimp only <;>
    exact ⟨(LED.sb_core _ _).1, (LED.sb_core _ _).2.1, (LED.sb_core _ _).2.2.1,
      (LED.sb_core _ _).2.2.2.1, (LED.sb_core _ _).2.2.2.2.1,
      (LED.sb_core _ _).2.2.2.2.2.1, (LED.sb_core _ _).2.2.2.2.2.2.1,
      (LED.sb_core _ _).2.2.2.2.2.2.2.1, (LED.sb_core _ _).2.2.2.2.2.2.2.2.1,
      (LED.sb_core _ _).2.2.2.2.2.2.2.2.2⟩


namespace LED

/-- countP of a filtered list is at most countP of the list. -/
theorem countP_filter_le {α : Type} (p q : α → Bool) (l : List α) :
    (l.filter q).countP p ≤ l.countP p := by
  rw [List.countP_filter]
  exact List.countP_mono_left (fun a _ hpq => (Bool.and_eq_true _ _).mp hpq |>.1)

/-- Inv only looks at the queue, the callback ids and the blinking flag. -/
theorem Inv_congr (s t : State) (hsch : t.sched = s.sched) (hb : t.blinkID = s.blinkID)
    (hf : t.fadeID = s.fadeID) (hibl : t.isblinking = s.isblinking) (h : Inv s) :
    Inv t := by
  unfold Inv at h ⊢
  rw [hsch, hb, hf, hibl]
  exact h

/-- Cancelling any id preserves Inv. -/
theorem Inv_cancel (s : State) (i : ℕ) (h : Inv s) :
    Inv { s with sched := s.sched.cancel i } := by
  obtain ⟨h1, h2, h3, h4, h5, h6, h7, h8, h9, h10⟩ := h
  refine ⟨le_trans (countP_filter_le _ _ _) h1, le_trans (countP_filter_le _ _ _) h2,
    ?_, ?_, ?_, h6, h7, h8, h9, h10⟩
  · intro p hp hb
    exact h3 p (List.mem_filter.mp hp).1 hb
  · intro p hp hb
    exact h4 p (List.mem_filter.mp hp).1 hb
  · intro p hp
    exact h5 p (List.mem_filter.mp hp).1

/-- Under Inv, a falsy blinkID means no blink callback is pending. -/
theorem countB_zero_of_blinkID_zero (s : State) (h : Inv s) (h0 : s.blinkID = 0) :
    countB s = 0 := by
  obtain ⟨-, -, h3, -, h5, -⟩ := h
  refine List.countP_eq_zero.mpr (fun p hp hb => ?_)
  have := (h3 p hp hb).1
  have hpos := (h5 p hp).1
  omega

/-- Under Inv, not blinking means no blink callback is pending. -/
theorem countB_zero_of_not_isblinking (s : State) (h : Inv s) (h0 : s.isblinking = false) :
    countB s = 0 := by
  obtain ⟨-, -, h3, -⟩ := h
  refine List.countP_eq_zero.mpr (fun p hp hb => ?_)
  have := (h3 p hp hb).2
  rw [h0] at this
  exact absurd this (by simp)

/-- blink_cancel keeps Inv, empties the blink queue and clears the flag. -/
theorem blink_cancel_spec (s : State) (h : Inv s) :
    Inv (blink_cancel s) ∧ countB (blink_cancel s) = 0 ∧
    (blink_cancel s).isblinking = false := by
  unfold blink_cancel
  split_ifs with hid
  · have hcb : ∀ p ∈ s.sched.pending.filter (fun p => p.1 ≠ s.blinkID),
        ¬ isBlinkCb p.2 = true := by
      intro p hp hb
      obtain ⟨hp1, hp2⟩ := List.mem_filter.mp hp
      have := (h.2.2.1 p hp1 hb).1
      simp [this] at hp2
    obtain ⟨h1, h2, h3, h4, h5, h6, h7, h8, h9, h10⟩ := h
    refine ⟨⟨?_, le_trans (countP_filter_le _ _ _) h2, ?_, ?_, ?_, by simp, h7, h8, h9, h10⟩,
      ?_, rfl⟩
    · exact le_trans (countP_filter_le _ _ _) h1
    · intro p hp hb
      exact absurd hb (hcb p hp)
    · intro p hp hb
      exact h4 p (List.mem_filter.mp hp).1 hb
    · intro p hp
      exact h5 p (List.mem_filter.mp hp).1
    · exact List.countP_eq_zero.mpr hcb
  · have h0 : s.blinkID = 0 := by omega
    have hibl : s.isblinking = false := by
      cases hb : s.isblinking
      · rfl
      · exact absurd (h.2.2.2.2.2.1 hb) (by simp [h0])
    exact ⟨h, countB_zero_of_blinkID_zero s h h0, hibl⟩

/-- Scheduling a blink callback from a state with none pending keeps Inv. -/
theorem schedule_blink_inv (s : State) (h : Inv s) (hb : countB s = 0) :
    Inv { s with
      sched := (s.sched.after .blinkCb).2,
      blinkID := (s.sched.after .blinkCb).1, isblinking := true } := by
  obtain ⟨h1, h2, h3, h4, h5, h6, h7, h8, h9, h10⟩ := h
  unfold countB at hb
  unfold Inv Sched.after
  dsimp only
  refine ⟨?_, ?_, ?_, ?_, ?_, ?_, ?_, ?_, ?_, ?_⟩
  · rw [List.countP_append, hb]
    simp [isBlinkCb]
  · rw [List.countP_append]
    simpa [isFadeCb] using h2
  · intro p hp hbk
    rcases List.mem_append.mp hp with hin | hin
    · exact absurd hbk (List.countP_eq_zero.mp hb p hin)
    · simp only [List.mem_singleton] at hin
      subst hin
      exact ⟨rfl, rfl⟩
  · intro p hp hf
    rcases List.mem_append.mp hp with hin | hin
    · exact h4 p hin hf
    · simp only [List.mem_singleton] at hin
      subst hin
      exact absurd hf (by simp [isFadeCb])
  · intro p hp
    rcases List.mem_append.mp hp with hin | hin
    · obtain ⟨hp1, hp2⟩ := h5 p hin
      exact ⟨hp1, Nat.lt_succ_of_lt hp2⟩
    · simp only [List.mem_singleton] at hin
      subst hin
      exact ⟨h10, Nat.lt_succ_self _⟩
  · intro _
    omega
  · intro heq
    exact absurd heq (by omega)
  · exact Nat.lt_succ_self _
  · exact Nat.lt_succ_of_lt h9
  · exact Nat.succ_pos _

/-- Scheduling a fade callback from a state with none pending keeps Inv. -/
theorem schedule_fade_inv (s : State) (a : ℚ) (b : List ℚ) (c d : ℚ)
    (h : Inv s) (hf : countF s = 0) :
    Inv { s with
      sched := (s.sched.after (.fadeCb a b c d)).2,
      fadeID := (s.sched.after (.fadeCb a b c d)).1 } := by
  obtain ⟨h1, h2, h3, h4, h5, h6, h7, h8, h9, h10⟩ := h
  unfold countF at hf
  unfold Inv Sched.after
  dsimp only
  refine ⟨?_, ?_, ?_, ?_, ?_, h6, ?_, ?_, ?_, ?_⟩
  · rw [List.countP_append]
    simpa [isBlinkCb] using h1
  · rw [List.countP_append, hf]
    simp [isFadeCb]
  · intro p hp hbk
    rcases List.mem_append.mp hp with hin | hin
    · exact h3 p hin hbk
    · simp only [List.mem_singleton] at hin
      subst hin
      exact absurd hbk (by simp [isBlinkCb])
  · intro p hp hfd
    rcases List.mem_append.mp hp with hin | hin
    · exact absurd hfd (List.countP_eq_zero.mp hf p hin)
    · simp only [List.mem_singleton] at hin
      subst hin
      rfl
  · intro p hp
    rcases List.mem_append.mp hp with hin | hin
    · obtain ⟨hp1, hp2⟩ := h5 p hin
      exact ⟨hp1, Nat.lt_succ_of_lt hp2⟩
    · simp only [List.mem_singleton] at hin
      subst hin
      exact ⟨h10, Nat.lt_succ_self _⟩
  · intro heq
    omega
  · exact Nat.lt_succ_of_lt h8
  · exact Nat.lt_succ_self _
  · exact Nat.succ_pos _

end LED

namespace LED

/-- fadeStep keeps Inv when no fade callback is pending. -/
theorem fadeStep_inv (s : State) (r : ℚ) (lat : List ℚ) (t tr e : ℚ)
    (h : Inv s) (hf : countF s = 0) : Inv (fadeStep s r lat t tr e) := by
  unfold fadeStep
  split_ifs with hr hl
  · dsimp only
    refine schedule_fade_inv _ _ _ _ _ (Inv_congr _ _ (sb_core _ _).1 (sb_core _ _).2.1
      (sb_core _ _).2.2.1 (sb_core _ _).2.2.2.1 h) ?_
    unfold countF
    rw [(sb_core _ _).1]
    exact hf
  · dsimp only
    refine schedule_fade_inv _ _ _ _ _ (Inv_congr _ _ (sb_core _ _).1 (sb_core _ _).2.1
      (sb_core _ _).2.2.1 (sb_core _ _).2.2.2.1 h) ?_
    unfold countF
    rw [(sb_core _ _).1]
    exact hf
  · exact Inv_congr _ _ (sb_core _ _).1 (sb_core _ _).2.1 (sb_core _ _).2.2.1
      (sb_core _ _).2.2.2.1 h

/-- fadeStep does not change state, blinking data or geometry, and keeps
the number of pending blink callbacks. -/
theorem fadeStep_core (s : State) (r : ℚ) (lat : List ℚ) (t tr e : ℚ) :
    (fadeStep s r lat t tr e).state = s.state ∧
    (fadeStep s r lat t tr e).isblinking = s.isblinking ∧
    (fadeStep s r lat t tr e).blinkID = s.blinkID ∧
    (fadeStep s r lat t tr e).casewidth = s.casewidth ∧
    (fadeStep s r lat t tr e).size = s.size ∧
    countB (fadeStep s r lat t tr e) = countB s := by
  unfold fadeStep Sched.after
  split_ifs with hr hl <;>
    refine ⟨(sb_core _ _).2.2.2.2.1, (sb_core _ _).2.2.2.1, (sb_core _ _).2.1,
      (sb_core _ _).2.2.2.2.2.2.2.2.1, (sb_core _ _).2.2.2.2.2.2.2.2.2, ?_⟩ <;>
    unfold countB <;> (try dsimp only)
  · rw [List.countP_append, (sb_core _ _).1]
    simp [isBlinkCb]
  · rw [List.countP_append, (sb_core _ _).1]
    simp [isBlinkCb]
  · rw [(sb_core _ _).1]

/-- fade keeps Inv. -/
theorem fade_inv (s : State) (st : Bool) (e : ℚ) (h : Inv s) : Inv (fade s st e) := by
  unfold fade
  try dsimp only
  have hspec : Inv (if s.fadeID ≠ 0 then { s with sched := s.sched.cancel s.fadeID } else s) ∧
      countF (if s.fadeID ≠ 0 then { s with sched := s.sched.cancel s.fadeID } else s) = 0 := by
    split_ifs with hid
    · refine ⟨Inv_cancel s _ h, List.countP_eq_zero.mpr (fun p hp hfd => ?_)⟩
      obtain ⟨hp1, hp2⟩ := List.mem_filter.mp hp
      have := h.2.2.2.1 p hp1 hfd
      simp [this] at hp2
    · have h0 : s.fadeID = 0 := by omega
      refine ⟨h, List.countP_eq_zero.mpr (fun p hp hfd => ?_)⟩
      have ha := h.2.2.2.1 p hp hfd
      have hb := (h.2.2.2.2.1 p hp).1
      omega
  refine fadeStep_inv _ _ _ _ _ _ (Inv_congr _ _ rfl rfl rfl rfl hspec.1) hspec.2

/-- blink_cancel does not change state, rates or geometry and does not
add callbacks. -/
theorem blink_cancel_core (s : State) :
    (blink_cancel s).state = s.state ∧ (blink_cancel s).blinkrate = s.blinkrate ∧
    (blink_cancel s).casewidth = s.casewidth ∧ (blink_cancel s).size = s.size ∧
    countB (blink_cancel s) ≤ countB s := by
  unfold blink_cancel
  split_ifs with hid
  · exact ⟨rfl, rfl, rfl, rfl, countP_filter_le _ _ _⟩
  · exact ⟨rfl, rfl, rfl, rfl, le_refl _⟩

/-- fade sets the state, does not touch the blinking data or geometry,
and does not increase the number of pending blink callbacks. -/
theorem fade_core (s : State) (st : Bool) (e : ℚ) :
    (fade s st e).state = st ∧
    (fade s st e).isblinking = s.isblinking ∧
    (fade s st e).blinkID = s.blinkID ∧
    (fade s st e).casewidth = s.casewidth ∧
    (fade s st e).size = s.size ∧
    countB (fade s st e) ≤ countB s := by
  unfold fade
  try dsimp only
  refine ⟨(fadeStep_core _ _ _ _ _ _).1.trans ?_, (fadeStep_core _ _ _ _ _ _).2.1.trans ?_,
    (fadeStep_core _ _ _ _ _ _).2.2.1.trans ?_, (fadeStep_core _ _ _ _ _ _).2.2.2.1.trans ?_,
    (fadeStep_core _ _ _ _ _ _).2.2.2.2.1.trans ?_,
    le_trans (le_of_eq (fadeStep_core _ _ _ _ _ _).2.2.2.2.2) ?_⟩
  · rfl
  · split_ifs <;> rfl
  · split_ifs <;> rfl
  · split_ifs <;> rfl
  · split_ifs <;> rfl
  · unfold countB Sched.cancel
    dsimp only
    split_ifs with hid
    · exact countP_filter_le _ _ _
    · exact le_refl _

/-- Turning on from an off, non-blinking LED leaves it on. -/
theorem turnon_state (s : State) (e : ℚ) (hst : s.state = false)
    (hbl : s.isblinking = false) : (turn s true e).state = true := by
  unfold turn
  rw [if_neg (by simp), if_pos ⟨by simp [hst], by simp [hbl]⟩]
  dsimp only
  split_ifs with hbr
  · exact (fade_core _ _ _).1
  · exact (fade_core _ _ _).1

/-- turn preserves Inv. -/
theorem turn_inv (s : State) (st : Bool) (e : ℚ) (h : Inv s) : Inv (turn s st e) := by
  unfold turn
  try dsimp only
  split_ifs <;>
    first
    | exact fade_inv _ _ _ (blink_cancel_spec s h).1
    | exact (blink_cancel_spec s h).1
    | exact h
    | exact fade_inv _ _ _ h
    | (refine fade_inv _ _ _ (schedule_blink_inv s h ?_)
       have hcond : ¬ s.state = true ∧ ¬ s.isblinking = true := by assumption
       exact countB_zero_of_not_isblinking s h (by simpa using hcond.2))

/-- Turning off never increases the number of pending blink callbacks. -/
theorem turn_false_countB_le (s : State) (e : ℚ) :
    countB (turn s false e) ≤ countB s := by
  unfold turn
  rw [if_pos (by simp)]
  try dsimp only
  split_ifs with h1
  · exact le_trans (fade_core _ _ _).2.2.2.2.2 (blink_cancel_core s).2.2.2.2
  · exact (blink_cancel_core s).2.2.2.2

/-- blink preserves Inv. -/
theorem blink_inv (s : State) (e : ℚ) (h : Inv s) : Inv (blink s e) := by
  obtain ⟨hi, hcb, hibl⟩ := blink_cancel_spec s h
  unfold blink
  try dsimp only
  split_ifs with hbr hst <;>
    first
    | exact hi
    | (unfold change_state
       exact turn_inv _ _ _ hi)
    | (unfold change_state at hst ⊢
       refine schedule_blink_inv (turn (blink_cancel s) (!(blink_cancel s).state) e)
         (turn_inv _ _ _ hi) ?_
       cases hs1 : (blink_cancel s).state
       · exfalso
         apply hst
         simp only [hs1, Bool.not_false]
         exact turnon_state _ _ hs1 hibl
       · simp only [Bool.not_true]
         exact Nat.le_zero.mp (le_trans (turn_false_countB_le _ _) (le_of_eq hcb)))

/-- Changing only the blinkrate field keeps Inv. -/
theorem Inv_blinkrate (s : State) (n : ℤ) (h : Inv s) :
    Inv { s with blinkrate := n } :=
  Inv_congr s { s with blinkrate := n } rfl rfl rfl rfl h

/-- set_blinkrate preserves Inv on every non-raising call. -/
theorem set_blinkrate_inv (s : State) (r e : ℚ) (s' : State) (h : Inv s)
    (hok : set_blinkrate s r e = .ok s') : Inv s' := by
  unfold set_blinkrate at hok
  try dsimp only at hok
  split_ifs at hok with h1 h2 h3
  · simp only [Except.ok.injEq] at hok
    subst hok
    exact blink_inv _ _ (Inv_blinkrate s _ h)
  · simp only [Except.ok.injEq] at hok
    subst hok
    unfold turnon
    exact turn_inv _ _ _ (blink_cancel_spec _ (Inv_blinkrate s _ h)).1
  · simp only [Except.ok.injEq] at hok
    subst hok
    exact Inv_blinkrate s _ h

/-- fire preserves Inv. -/
theorem fire_inv (s : State) (i : ℕ) (e : ℚ) (h : Inv s) : Inv (fire s i e) := by
  unfold fire
  cases hfd : s.sched.pending.find? (fun p => p.1 = i) with
  | none => exact h
  | some p =>
    dsimp only
    have hmem := List.mem_of_find?_eq_some hfd
    have hpi : p.1 = i := by simpa using List.find?_some hfd
    have hi1 : Inv { s with sched := s.sched.cancel i } := Inv_cancel s i h
    cases hcb : p.2 with
    | blinkCb => exact blink_inv _ _ hi1
    | fadeCb a b c d =>
      refine fadeStep_inv _ _ _ _ _ _ hi1 ?_
      refine List.countP_eq_zero.mpr (fun q hq hfq => ?_)
      obtain ⟨hq1, hq2⟩ := List.mem_filter.mp hq
      have hqid := h.2.2.2.1 q hq1 hfq
      have hpid : p.1 = s.fadeID := h.2.2.2.1 p hmem (by rw [hcb]; rfl)
      rw [hqid, ← hpid, hpi] at hq2
      simp at hq2

/-- The assembled initial LED state satisfies Inv. -/
theorem initState_inv (o : Opts) : Inv (initState o) := by
  unfold Inv initState
  simp

/-- A successfully constructed LED satisfies Inv. -/
theorem init_inv (o : Opts) (e : ℚ) (s : State) (ws : List String)
    (h : init o e = .ok (s, ws)) : Inv s := by
  unfold init at h
  split_ifs at h
  dsimp only at h
  injection h with h2
  injection h2 with ha hb
  subst ha
  exact turn_inv _ _ _ (Inv_congr _ _ (cc_core _ _ _).1 (cc_core _ _ _).2.1
    (cc_core _ _ _).2.2.1 (cc_core _ _ _).2.2.2.1 (initState_inv o))

end LED


/-- C7: at most one blink and at most one fade after-callback is ever
pending.  The scheduler invariant Inv (whose first two clauses bound the
pending blink and fade callbacks by one) holds for every constructed LED
and is preserved by turn, blink, fade, the delivery of any pending
callback, and every non-raising set_blinkrate call; blink always cancels
the previous blink callback first (its body starts with blink_cancel),
turn(ON) schedules one only when not already blinking, and fade cancels
the pending fade callback before scheduling a new one. -/
theorem led_callback_uniqueness :
    (∀ (o : LED.Opts) (e : ℚ) (s : LED.State) (ws : List String),
      LED.init o e = .ok (s, ws) → LED.Inv s) ∧
    (∀ s : LED.State, LED.Inv s →
      LED.countB s ≤ 1 ∧ LED.countF s ≤ 1 ∧
      (∀ st e, LED.Inv (LED.turn s st e)) ∧
      (∀ e, LED.Inv (LED.blink s e)) ∧
      (∀ st e, LED.Inv (LED.fade s st e)) ∧
      (∀ i e, LED.Inv (LED.fire s i e)) ∧
      (∀ r e s', LED.set_blinkrate s r e = .ok s' → LED.Inv s')) :=
  ⟨LED.init_inv, fun s h => ⟨h.1, h.2.1, fun st e => LED.turn_inv s st e h,
    fun e => LED.blink_inv s e h, fun st e => LED.fade_inv s st e h,
    fun i e => LED.fire_inv s i e h, fun r e s' => LED.set_blinkrate_inv s r e s' h⟩⟩

/-- Witness for C7: the example LED satisfies the invariant, and turning
it on (which schedules one blink callback, rate 500) keeps it. -/
theorem led_callback_uniqueness_witness :
    LED.Inv LED.exState ∧ LED.Inv (LED.turn LED.exState true 0) :=
  ⟨by unfold LED.Inv; decide,
   (led_callback_uniqueness.2 LED.exState (by unfold LED.Inv; decide)).2.2.1 true 0⟩



/-- Successful LED construction: validation passed and the state is the
turn/change_color composition over the assembled initial state. -/
theorem LED.init_ok_parts (o : LED.Opts) (e : ℚ) (s : LED.State) (ws : List String)
    (h : LED.init o e = .ok (s, ws)) :
    0 < o.effSize ∧ 0 ≤ o.effCasewidth ∧
    s = LED.turn (LED.change_color (LED.initState o) (some o.effDiode) (some o.effBulb))
          (o.state.getD false) e ∧
    ws = LED.warnReflect o ++ (LED.cwAdjusted o).2 := by
  unfold LED.init at h
  split_ifs at h with h1 h2 h3 h4 h5
  dsimp only at h
  injection h with h'
  injection h' with ha hb
  subst ha
  subst hb
  exact ⟨not_le.mp h2, not_lt.mp h3, rfl, rfl⟩

/-- turn does not change the geometry fields. -/
theorem LED.turn_geo (s : LED.State) (st : Bool) (e : ℚ) :
    (LED.turn s st e).casewidth = s.casewidth ∧ (LED.turn s st e).size = s.size := by
  unfold LED.turn
  try dsimp only
  split_ifs <;>
    first
    | exact ⟨rfl, rfl⟩
    | exact ⟨(LED.fade_core _ _ _).2.2.2.1.trans (LED.blink_cancel_core s).2.2.1,
        (LED.fade_core _ _ _).2.2.2.2.1.trans (LED.blink_cancel_core s).2.2.2.1⟩
    | exact ⟨(LED.blink_cancel_core s).2.2.1, (LED.blink_cancel_core s).2.2.2.1⟩
    | exact ⟨(LED.fade_core _ _ _).2.2.2.1, (LED.fade_core _ _ _).2.2.2.2.1⟩

/-- blink does not change the geometry fields. -/
theorem LED.blink_geo (s : LED.State) (e : ℚ) :
    (LED.blink s e).casewidth = s.casewidth ∧ (LED.blink s e).size = s.size := by
  unfold LED.blink LED.change_state
  try dsimp only
  split_ifs <;>
    first
    | exact ⟨(LED.blink_cancel_core s).2.2.1, (LED.blink_cancel_core s).2.2.2.1⟩
    | exact ⟨(LED.turn_geo _ _ _).1.trans (LED.blink_cancel_core s).2.2.1,
        (LED.turn_geo _ _ _).2.trans (LED.blink_cancel_core s).2.2.2.1⟩

/-- change_color does not change the geometry fields. -/
theorem LED.cc_geo (s : LED.State) (d b : Option (ℕ × ℕ × ℕ)) :
    (LED.change_color s d b).casewidth = s.casewidth ∧
    (LED.change_color s d b).size = s.size :=
  ⟨(LED.cc_core s d b).2.2.2.2.2.2.2.2.1, (LED.cc_core s d b).2.2.2.2.2.2.2.2.2⟩

/-- fire does not change the geometry fields. -/
theorem LED.fire_geo (s : LED.State) (i : ℕ) (e : ℚ) :
    (LED.fire s i e).casewidth = s.casewidth ∧ (LED.fire s i e).size = s.size := by
  unfold LED.fire
  cases hfd : s.sched.pending.find? (fun p => p.1 = i) with
  | none => exact ⟨rfl, rfl⟩
  | some p =>
    dsimp only
    cases p.2 with
    | blinkCb => exact ⟨(LED.blink_geo _ _).1, (LED.blink_geo _ _).2⟩
    | fadeCb a b c d =>
      exact ⟨(LED.fadeStep_core _ _ _ _ _ _).2.2.2.1,
        (LED.fadeStep_core _ _ _ _ _ _).2.2.2.2.1⟩

/-- Dial casewidth clamp facts, given validated size and casewidth. -/
theorem Dial.dialCwAdjusted_spec (o : Dial.Opts) (hs : 0 < o.effSize)
    (hc : 0 ≤ o.effCasewidth) :
    (Dial.cwAdjusted o).1 ≤ o.effSize / 10 ∧
    (o.effSize / 10 < o.effCasewidth →
      (Dial.cwAdjusted o).1 = o.effSize / 10 ∧
      "Dial casewidth must be less than or equal to 1/10 the size"
        ∈ (Dial.cwAdjusted o).2) ∧
    (o.effCasewidth = 0 → (Dial.cwAdjusted o).1 = 0) := by
  unfold Dial.cwAdjusted
  split_ifs with h0 h10
  · refine ⟨?_, ?_, fun _ => h0⟩
    · rw [h0]
      positivity
    · intro hlt
      rw [h0] at hlt
      have : (0 : ℚ) < o.effSize / 10 := by positivity
      exact absurd hlt (by linarith)
  · exact ⟨le_refl _, fun _ => ⟨rfl, by simp⟩, fun hc0 => absurd hc0 h0⟩
  · have hcw : 0 < o.effCasewidth := lt_of_le_of_ne hc (Ne.symm h0)
    have hge : 10 ≤ o.effSize / o.effCasewidth := not_lt.mp h10
    refine ⟨?_, ?_, fun hc0 => absurd hc0 h0⟩
    · have h1 : 10 * o.effCasewidth ≤ o.effSize := (le_div_iff₀ hcw).mp hge
      rw [le_div_iff₀ (show (0:ℚ) < 10 by norm_num)]
      linarith
    · intro hlt
      exfalso
      have h1 : o.effSize < o.effCasewidth * 10 :=
        (div_lt_iff₀ (show (0:ℚ) < 10 by norm_num)).mp hlt
      exact h10 ((div_lt_iff₀ hcw).mpr (by linarith))

/-- LED casewidth clamp facts, given validated size and casewidth. -/
theorem LED.ledCwAdjusted_spec (o : LED.Opts) (hs : 0 < o.effSize)
    (hc : 0 ≤ o.effCasewidth) :
    (LED.cwAdjusted o).1 ≤ o.effSize / 10 ∧
    (o.effSize / 10 < o.effCasewidth →
      (LED.cwAdjusted o).1 = o.effSize / 10 ∧
      "LED casewidth must be less than or equal to 1/10 the size"
        ∈ (LED.cwAdjusted o).2) ∧
    (o.effCasewidth = 0 → (LED.cwAdjusted o).1 = 0) := by
  unfold LED.cwAdjusted
  split_ifs with h0 h10
  · refine ⟨?_, ?_, fun _ => h0⟩
    · rw [h0]
      positivity
    · intro hlt
      rw [h0] at hlt
      have : (0 : ℚ) < o.effSize / 10 := by positivity
      exact absurd hlt (by linarith)
  · exact ⟨le_refl _, fun _ => ⟨rfl, by simp⟩, fun hc0 => absurd hc0 h0⟩
  · have hcw : 0 < o.effCasewidth := lt_of_le_of_ne hc (Ne.symm h0)
    have hge : 10 ≤ o.effSize / o.effCasewidth := not_lt.mp h10
    refine ⟨?_, ?_, fun hc0 => absurd hc0 h0⟩
    · have h1 : 10 * o.effCasewidth ≤ o.effSize := (le_div_iff₀ hcw).mp hge
      rw [le_div_iff₀ (show (0:ℚ) < 10 by norm_num)]
      linarith
    · intro hlt
      exfalso
      have h1 : o.effSize < o.effCasewidth * 10 :=
        (div_lt_iff₀ (show (0:ℚ) < 10 by norm_num)).mp hlt
      exact h10 ((div_lt_iff₀ hcw).mpr (by linarith))



/-- C5: after Dial or LED construction the case width never exceeds one
tenth of the size; a casewidth above size/10 is clamped to size/10 with a
warning; a casewidth of 0 is kept; and no later state-updating operation
of either widget ever changes the case width (or size). -/
theorem casewidth_invariant :
    (∀ (o : Dial.Opts) (s : Dial.State) (ws : List String),
      Dial.init o = .ok (s, ws) →
      s.casewidth ≤ s.size / 10 ∧
      (o.effSize / 10 < o.effCasewidth →
        "Dial casewidth must be less than or equal to 1/10 the size" ∈ ws ∧
        s.casewidth = s.size / 10) ∧
      (o.effCasewidth = 0 → s.casewidth = 0) ∧
      (∀ v?, (Dial.set_value s v?).casewidth = s.casewidth ∧
        (Dial.set_value s v?).size = s.size)) ∧
    (∀ (o : LED.Opts) (e : ℚ) (s : LED.State) (ws : List String),
      LED.init o e = .ok (s, ws) →
      s.casewidth ≤ s.size / 10 ∧
      (o.effSize / 10 < o.effCasewidth →
        "LED casewidth must be less than or equal to 1/10 the size" ∈ ws ∧
        s.casewidth = s.size / 10) ∧
      (o.effCasewidth = 0 → s.casewidth = 0)) ∧
    (∀ s : LED.State,
      (∀ st e, (LED.turn s st e).casewidth = s.casewidth ∧
        (LED.turn s st e).size = s.size) ∧
      (∀ e, (LED.blink s e).casewidth = s.casewidth) ∧
      (∀ st e, (LED.fade s st e).casewidth = s.casewidth) ∧
      (∀ l, (LED.set_brightness s l).casewidth = s.casewidth) ∧
      (∀ d b, (LED.change_color s d b).casewidth = s.casewidth) ∧
      (∀ i e, (LED.fire s i e).casewidth = s.casewidth)) := by
  refine ⟨?_, ?_, ?_⟩
  · intro o s ws h
    rw [Dial.init_ok_iff] at h
    obtain ⟨-, hs, hc, -, -, -, -, -, -, rfl, rfl⟩ := h
    have hcw : (Dial.set_value (Dial.initState o) o.value).casewidth
        = (Dial.cwAdjusted o).1 := (Dial.set_value_fields _ _).2.2.2.2.2.2.1
    have hsz : (Dial.set_value (Dial.initState o) o.value).size = o.effSize :=
      (Dial.set_value_fields _ _).2.2.2.2.2.1
    obtain ⟨c1, c2, c3⟩ := Dial.dialCwAdjusted_spec o hs hc
    refine ⟨?_, ?_, ?_, ?_⟩
    · rw [hcw, hsz]
      exact c1
    · intro hlt
      obtain ⟨e1, e2⟩ := c2 hlt
      exact ⟨by simp [e2], by rw [hcw, hsz, e1]⟩
    · intro h0
      rw [hcw, c3 h0]
    · intro v?
      constructor
      · rw [(Dial.set_value_fields _ _).2.2.2.2.2.2.1]
      · rw [(Dial.set_value_fields _ _).2.2.2.2.2.1]
  · intro o e s ws h
    obtain ⟨hs, hc, rfl, rfl⟩ := LED.init_ok_parts o e _ _ h
    have hcw : (LED.turn (LED.change_color (LED.initState o) (some o.effDiode)
          (some o.effBulb)) (o.state.getD false) e).casewidth
        = (LED.cwAdjusted o).1 := by
      rw [(LED.turn_geo _ _ _).1, (LED.cc_geo _ _ _).1]
      rfl
    have hsz : (LED.turn (LED.change_color (LED.initState o) (some o.effDiode)
          (some o.effBulb)) (o.state.getD false) e).size = o.effSize := by
      rw [(LED.turn_geo _ _ _).2, (LED.cc_geo _ _ _).2]
      rfl
    obtain ⟨c1, c2, c3⟩ := LED.ledCwAdjusted_spec o hs hc
    refine ⟨?_, ?_, ?_⟩
    · rw [hcw, hsz]
      exact c1
    · intro hlt
      obtain ⟨e1, e2⟩ := c2 hlt
      exact ⟨by simp [e2], by rw [hcw, hsz, e1]⟩
    · intro h0
      rw [hcw, c3 h0]
  · intro s
    exact ⟨fun st e => LED.turn_geo s st e, fun e => (LED.blink_geo s e).1,
      fun st e => (LED.fade_core s st e).2.2.2.1, fun l => (LED.sb_core s l).2.2.2.2.2.2.2.2.1,
      fun d b => (LED.cc_geo s d b).1, fun i e => (LED.fire_geo s i e).1⟩

/-- Witness for C5: a Dial built with casewidth 40 (above 300/10) ends
with its casewidth within a tenth of the size; a default LED and the
turn operation keep the case width. -/
theorem casewidth_invariant_witness :
    (Dial.set_value (Dial.initState { casewidth := some 40 }) none).casewidth
      ≤ (Dial.set_value (Dial.initState { casewidth := some 40 }) none).size / 10 ∧
    (LED.turn (LED.change_color (LED.initState {}) (some (LED.Opts.effDiode {}))
        (some (LED.Opts.effBulb {}))) false 0).casewidth
      ≤ (LED.turn (LED.change_color (LED.initState {}) (some (LED.Opts.effDiode {}))
        (some (LED.Opts.effBulb {}))) false 0).size / 10 ∧
    (LED.turn LED.exState true 0).casewidth = LED.exState.casewidth := by
  have hinit : Dial.init { casewidth := some 40 } =
      .ok (Dial.set_value (Dial.initState { casewidth := some 40 }) none,
        Dial.warnMinMax { casewidth := some 40 }
          ++ (Dial.semiAdjusted { casewidth := some 40 }).2
          ++ (Dial.cwAdjusted { casewidth := some 40 }).2) :=
    (Dial.init_ok_iff _ _ _).mpr ⟨rfl,
      by norm_num [Dial.Opts.effSize],
      by norm_num [Dial.Opts.effCasewidth],
      by norm_num [Dial.Opts.effStart],
      by norm_num [Dial.Opts.effExtent],
      by norm_num [Dial.Opts.effMajorscale],
      by norm_num [Dial.Opts.effSemimajorscale],
      by norm_num [Dial.Opts.effMinorscale],
      by norm_num [Dial.Opts.effMin, Dial.Opts.effMax], rfl, rfl⟩
  have hinit2 : LED.init {} 0 =
      .ok (LED.turn (LED.change_color (LED.initState {}) (some (LED.Opts.effDiode {}))
          (some (LED.Opts.effBulb {}))) false 0,
        LED.warnReflect {} ++ (LED.cwAdjusted {}).2) := by
    unfold LED.init
    rw [if_neg (by simp), if_neg (by norm_num [LED.Opts.effSize]),
      if_neg (by norm_num [LED.Opts.effCasewidth]), if_neg (by simp), if_neg (by simp)]
    rfl
  exact ⟨(casewidth_invariant.1 _ _ _ hinit).1,
    (casewidth_invariant.2.1 _ _ _ _ hinit2).1,
    ((casewidth_invariant.2.2 LED.exState).1 true 0).1⟩


end Viewidget
